import Mathlib

/-!
Verification of the SupplierDatabaseFU serverless handlers.

The repository consists of four TypeScript Azure Functions
(`manageLicense.ts`, `sendEmail/index.ts` (which also carries an earlier
variant of the license handler), `handleActivityResponse.ts`,
`resetFreelancerPassword.ts`).  Each handler validates a JSON payload,
talks to a remote graph-style REST API, and formats a JSON response.

The embedding below is a shallow one: every remote round-trip is a field
of a `GraphEnv` record mapping the call arguments to an `Except`-style
outcome, and each embedded function additionally returns the list of
remote calls it issued (its trace).  Payload constants that the remote
service ignores for control-flow purposes (redirect URLs, invitation
message bodies, the patched field maps, the mail message contents) are
elided from the environment keys; the call itself is still recorded in
the trace.  Token acquisition is lazy in the source (it happens inside
the graph client middleware on each request), so it is bundled into each
traced remote call rather than traced separately.
-/

/-- A caught JavaScript error as the handlers inspect it: an optional
HTTP status code (`error.statusCode`), an optional message
(`error.message`), and an optional graph error code (`error.code`). -/
structure GraphError where
  statusCode : Option Nat := none
  message : Option String := none
  code : Option String := none
deriving DecidableEq, Repr

/-- A directory user record as consumed by the handlers
(`id`, `userPrincipalName`, `mail`, `displayName`). -/
structure UserRecord where
  id : String
  userPrincipalName : String
  mail : Option String := none
  displayName : String := ""
deriving DecidableEq, Repr

/-- The part of a `POST /invitations` response the code reads:
`invitation.invitedUser.id` and `invitation.invitedUserEmailAddress`. -/
structure InvitationResponse where
  invitedUserId : String
  invitedUserEmailAddress : String
deriving DecidableEq, Repr

/-- One remote round-trip, recorded in a handler trace. -/
inductive RemoteCall where
  /-- `GET /users/{idOrUpn}` (point lookup by object id or UPN). -/
  | userLookup (identifier : String)
  /-- `GET /users?$filter=mail eq .. or userPrincipalName eq ..`. -/
  | userSearch (email : String)
  /-- `POST /invitations` creating a guest user. -/
  | inviteUser (email : String)
  /-- `GET /groups/{gid}/members?$filter=id eq ..` (v1 pre-check). -/
  | groupMemberQuery (userId : String)
  /-- `POST /groups/{gid}/members/$ref`. -/
  | groupMemberAdd (userId : String)
  /-- `DELETE /groups/{gid}/members/{userId}/$ref`. -/
  | groupMemberRemove (userId : String)
  /-- `GET /sites/{hostname}:{path}` (SharePoint site id lookup). -/
  | siteLookup
  /-- `PATCH /sites/{siteId}/lists/{listId}/items/{itemId}/fields`. -/
  | itemPatch (itemId : String)
  /-- `PATCH /users/{userId}` with a password profile. -/
  | passwordPatch (userId : String)
  /-- `POST /users/{sender}/sendMail` to the given recipient. -/
  | sendMailTo (recipient : String)
deriving DecidableEq, Repr

/-- The remote environment: the outcome the remote API would produce for
each call the handlers can issue.  Free-form payloads that do not steer
the handlers control flow are elided from the keys (see the module
comment). -/
structure GraphEnv where
  getUser : String → Except GraphError UserRecord
  searchUsers : String → Except GraphError (List UserRecord)
  postInvitation : String → String → Except GraphError InvitationResponse
  queryGroupMember : String → Except GraphError (List UserRecord)
  postGroupMember : String → Except GraphError Unit
  deleteGroupMember : String → Except GraphError Unit
  getSite : Except GraphError String
  patchListItem : String → Except GraphError Unit
  patchUserPassword : String → Except GraphError Unit
  sendMail : String → Except GraphError Unit

/-- JavaScript truthiness of an optional string field: `undefined`
(absent) and the empty string are falsy. -/
def truthy : Option String → Bool
  | none => false
  | some s => !(s == "")

/-- `p` is a prefix of `l` (character lists). -/
def strStartsWith : List Char → List Char → Bool
  | _, [] => true
  | [], _ :: _ => false
  | a :: as, b :: bs => a == b && strStartsWith as bs

/-- `p` occurs as a contiguous substring of `l`: model of
JavaScript `String.prototype.includes`. -/
def strHasSub : List Char → List Char → Bool
  | [], p => strStartsWith [] p
  | l@(_ :: rest), p => strStartsWith l p || strHasSub rest p

/-- Model of the optional-chaining test `error.message?.includes(sub)`:
an absent message is falsy. -/
def msgIncludes (m : Option String) (sub : String) : Bool :=
  match m with
  | none => false
  | some s => strHasSub s.toList sub.toList

/-- `addUserToGroup` from `manageLicense.ts` (the direct-mutate variant):
POSTs the member reference; a failure with status 400 whose message
contains "already exist" or "already a member", or whose code is
`Request_BadRequest`, is swallowed as success; any other error is
rethrown. -/
def addUserToGroup (env : GraphEnv) (userId : String) :
    Except GraphError Unit × List RemoteCall :=
  let t := [RemoteCall.groupMemberAdd userId]
  match env.postGroupMember userId with
  | .ok _ => (.ok (), t)
  | .error e =>
    if e.statusCode == some 400 &&
        (msgIncludes e.message "already exist" ||
         msgIncludes e.message "already a member" ||
         e.code == some "Request_BadRequest") then
      (.ok (), t)
    else
      (.error e, t)

/-- `addUserToGroup` from the earlier license handler kept in
`sendEmail/index.ts` (the pre-check variant): first queries the group
members filtered by the user id; a non-empty result short-circuits to
success; otherwise POSTs the member reference.  The single catch block
swallows a 400 whose message contains "already exist" and rethrows
everything else (a pre-check failure goes through the same catch). -/
def addUserToGroupV1 (env : GraphEnv) (userId : String) :
    Except GraphError Unit × List RemoteCall :=
  let catchV1 : GraphError → Except GraphError Unit := fun e =>
    if e.statusCode == some 400 && msgIncludes e.message "already exist" then
      .ok ()
    else
      .error e
  let t := [RemoteCall.groupMemberQuery userId]
  match env.queryGroupMember userId with
  | .ok (_ :: _) => (.ok (), t)
  | .ok [] =>
    let t := t ++ [RemoteCall.groupMemberAdd userId]
    match env.postGroupMember userId with
    | .ok _ => (.ok (), t)
    | .error e => (catchV1 e, t)
  | .error e => (catchV1 e, t)

/-- `removeUserFromGroup`: DELETEs the member reference; a failure with
status 404 is swallowed as success; any other error is rethrown.  The
implementations in `manageLicense.ts` and `handleActivityResponse.ts`
are identical and are embedded once. -/
def removeUserFromGroup (env : GraphEnv) (userId : String) :
    Except GraphError Unit × List RemoteCall :=
  let t := [RemoteCall.groupMemberRemove userId]
  match env.deleteGroupMember userId with
  | .ok _ => (.ok (), t)
  | .error e =>
    if e.statusCode == some 404 then (.ok (), t) else (.error e, t)

/-- A concrete environment in which the remote delete-member call fails
with a 404 for user `u1`. -/
def envRemove404 : GraphEnv where
  getUser := fun _ => .error {}
  searchUsers := fun _ => .ok []
  postInvitation := fun _ _ => .error {}
  queryGroupMember := fun _ => .ok []
  postGroupMember := fun _ => .ok ()
  deleteGroupMember := fun _ =>
    .error { statusCode := some 404, message := some "Resource not found" }
  getSite := .ok "site-1"
  patchListItem := fun _ => .ok ()
  patchUserPassword := fun _ => .ok ()
  sendMail := fun _ => .ok ()

/-- A 400-class remote error whose message does not mention an existing
membership, but whose graph error code is the generic
`Request_BadRequest`. -/
def eBadRequest : GraphError :=
  { statusCode := some 400, message := some "Invalid object identifier",
    code := some "Request_BadRequest" }

/-- Environment in which the add-member call fails with `eBadRequest`. -/
def envAddBadRequest : GraphEnv :=
  { envRemove404 with postGroupMember := fun _ => .error eBadRequest }

/-- OPTIONS 3 and 4 of `findOrCreateUser` (`manageLicense.ts`): the
filtered search over `/users`, taking the first match of a non-empty
result, else a `POST /invitations` whose response is synthesized into a
user record (`id` from the invited user, `userPrincipalName` from the
response's `invitedUserEmailAddress`, `mail` and `displayName` from the
inputs).  Search or invitation failures are rethrown by the enclosing
catch.  The whole of the `findOrCreateUser` variant in
`sendEmail/index.ts` has exactly this search-then-invite body. -/
def searchOrInvite (env : GraphEnv) (email firstName lastName : String)
    (t : List RemoteCall) : Except GraphError UserRecord × List RemoteCall :=
  let t := t ++ [RemoteCall.userSearch email]
  match env.searchUsers email with
  | .error e => (.error e, t)
  | .ok (u :: _) => (.ok u, t)
  | .ok [] =>
    let t := t ++ [RemoteCall.inviteUser email]
    match env.postInvitation email (firstName ++ " " ++ lastName) with
    | .error e => (.error e, t)
    | .ok inv =>
      (.ok { id := inv.invitedUserId,
             userPrincipalName := inv.invitedUserEmailAddress,
             mail := some email,
             displayName := firstName ++ " " ++ lastName }, t)

/-- OPTION 2 of `findOrCreateUser`: if a (truthy) UPN hint is present,
point lookup by UPN; any failure falls through to the search. -/
def tryUpnThenSearch (env : GraphEnv) (entraUPN : Option String)
    (email firstName lastName : String) (t : List RemoteCall) :
    Except GraphError UserRecord × List RemoteCall :=
  if truthy entraUPN then
    let upn := entraUPN.getD ""
    let t := t ++ [RemoteCall.userLookup upn]
    match env.getUser upn with
    | .ok u => (.ok u, t)
    | .error _ => searchOrInvite env email firstName lastName t
  else
    searchOrInvite env email firstName lastName t

/-- `findOrCreateUser` from `manageLicense.ts`: OPTION 1 point lookup by
object id (any failure falls through), OPTION 2 point lookup by UPN,
OPTION 3 filtered search by email, OPTION 4 guest invitation. -/
def findOrCreateUser (env : GraphEnv) (entraObjectId entraUPN : Option String)
    (email firstName lastName : String) :
    Except GraphError UserRecord × List RemoteCall :=
  if truthy entraObjectId then
    let oid := entraObjectId.getD ""
    let t := [RemoteCall.userLookup oid]
    match env.getUser oid with
    | .ok u => (.ok u, t)
    | .error _ => tryUpnThenSearch env entraUPN email firstName lastName t
  else
    tryUpnThenSearch env entraUPN email firstName lastName []

/-- `findOrCreateUser` from the earlier license handler kept in
`sendEmail/index.ts`: no id or UPN hints, just the filtered search by
email followed by guest invitation. -/
def findOrCreateUserV1 (env : GraphEnv) (email firstName lastName : String) :
    Except GraphError UserRecord × List RemoteCall :=
  searchOrInvite env email firstName lastName []

/-- Environment in which the point lookup finds an existing user. -/
def envFoundById : GraphEnv :=
  { envRemove404 with
    getUser := fun identifier =>
      .ok { id := "uid-7", userPrincipalName := identifier,
            mail := some "a@b.com", displayName := "A B" } }

/-- Counts the invitation-creation calls in a trace. -/
def countInviteCalls (t : List RemoteCall) : Nat :=
  (t.filter fun c =>
    match c with
    | RemoteCall.inviteUser _ => true
    | _ => false).length

/-- Environment in which no user exists: lookups fail with 404, the
search is empty, and the invitation succeeds echoing the email. -/
def envNoUser : GraphEnv :=
  { envRemove404 with
    getUser := fun _ => .error { statusCode := some 404, message := some "Resource does not exist" },
    searchUsers := fun _ => .ok [],
    postInvitation := fun email _ =>
      .ok { invitedUserId := "guest-1", invitedUserEmailAddress := email } }

/-- An HTTP response as the handlers build it: the status code plus the
JSON body fields any of the four handlers can set.  Absent JSON fields
are `none`/`false`; `timestamp` records only whether the body carries a
timestamp (its value, `new Date().toISOString()`, is wall-clock). -/
structure HandlerResponse where
  status : Nat
  success : Bool
  action : Option String := none
  error : Option String := none
  details : Option String := none
  message : Option String := none
  userPrincipalName : Option String := none
  userId : Option String := none
  newPassword : Option String := none
  timestamp : Bool := false
deriving DecidableEq, Repr

/-- The catch block of `manageLicense` (`manageLicense.ts`): maps the
caught error's `statusCode` 401/403/404/429 to the same HTTP status and
anything else to 500, with a body carrying `success:false`, a
human-readable `error`, the raw `details`, and a timestamp. -/
def manageLicenseErrorResponse (e : GraphError) : HandlerResponse :=
  let errorMessage := e.message.getD "Unknown error occurred"
  let statusAndMessage : Nat × String :=
    if e.statusCode == some 401 then
      (401, "Authentication failed. Please check app permissions.")
    else if e.statusCode == some 403 then
      (403, "Insufficient permissions to manage licenses.")
    else if e.statusCode == some 404 then
      (404, "User or group not found.")
    else if e.statusCode == some 429 then
      (429, "Rate limit exceeded. Please try again later.")
    else
      (500, "Failed to manage license")
  { status := statusAndMessage.1, success := false,
    error := some statusAndMessage.2, details := some errorMessage,
    timestamp := true }

/-- The catch block of the earlier license handler kept in
`sendEmail/index.ts`: identical to `manageLicenseErrorResponse` except
that it has no 429 branch, so a remote 429 falls through to 500. -/
def manageLicenseV1ErrorResponse (e : GraphError) : HandlerResponse :=
  let errorMessage := e.message.getD "Unknown error occurred"
  let statusAndMessage : Nat × String :=
    if e.statusCode == some 401 then
      (401, "Authentication failed. Please check app permissions.")
    else if e.statusCode == some 403 then
      (403, "Insufficient permissions to manage licenses.")
    else if e.statusCode == some 404 then
      (404, "User or group not found.")
    else
      (500, "Failed to manage license")
  { status := statusAndMessage.1, success := false,
    error := some statusAndMessage.2, details := some errorMessage,
    timestamp := true }

/-- ASCII word character, the `\w` character class of the regexes. -/
def isWordChar (c : Char) : Bool :=
  (65 ≤ c.toNat && c.toNat ≤ 90) || (97 ≤ c.toNat && c.toNat ≤ 122) ||
  (48 ≤ c.toNat && c.toNat ≤ 57) || c == '_'

/-- ASCII whitespace, the `\s` character class of the regexes restricted
to ASCII (the Unicode space code points play no role here). -/
def isSpaceChar (c : Char) : Bool :=
  c.toNat == 32 || c.toNat == 9 || c.toNat == 10 || c.toNat == 13 ||
  c.toNat == 11 || c.toNat == 12

/-- ASCII lower-casing of one character (for the `i` regex flag and for
`String.prototype.toLowerCase` on the ASCII strings involved). -/
def asciiLowerChar (c : Char) : Char :=
  if 65 ≤ c.toNat && c.toNat ≤ 90 then Char.ofNat (c.toNat + 32) else c

/-- `p` is a case-insensitive (ASCII) prefix of `l`. -/
def ciStartsWith : List Char → List Char → Bool
  | _, [] => true
  | [], _ :: _ => false
  | a :: as, b :: bs => (asciiLowerChar a == asciiLowerChar b) && ciStartsWith as bs

/-- Scans for the first case-insensitive occurrence of the literal
closing tag of the script-block regex and returns the text after it. -/
def findScriptClose : List Char → Option (List Char)
  | [] => none
  | l@(_ :: rest) =>
    if ciStartsWith l ("</script>".toList) then some (l.drop 9)
    else findScriptClose rest

/-- Global replacement by "" for
`/<script\b[^<]*(?:(?!<\/script>)<[^<]*)*<\/script>/gi`: a match runs
from `<script` at a word boundary to the first following `</script>`
(the negative lookahead keeps the starred group from crossing one), both
case-insensitively; an unpaired `<script` does not match.  The fuel
argument (initialised to the input length, which every step strictly
decreases) makes the scan structurally recursive. -/
def stripScriptsF : Nat → List Char → List Char
  | 0, l => l
  | _ + 1, [] => []
  | fuel + 1, l@(c :: rest) =>
    if ciStartsWith l ("<script".toList) &&
        (match l.drop 7 with
         | [] => true
         | d :: _ => !isWordChar d) then
      match findScriptClose (l.drop 7) with
      | some rem => stripScriptsF fuel rem
      | none => c :: stripScriptsF fuel rest
    else
      c :: stripScriptsF fuel rest

/-- The double-quote character. -/
def dquoteChar : Char := Char.ofNat 34

/-- The single-quote character. -/
def squoteChar : Char := Char.ofNat 39

/-- Attempts to match the tail of `/on\w+\s*=\s*["'][^"']*["']/gi` right
after its leading `on`: one or more word characters, optional spaces,
`=`, optional spaces, an opening quote, a run of non-quote characters,
and a closing quote (either kind).  Returns the text after the match. -/
def matchOnAttrQuoted (l : List Char) : Option (List Char) :=
  match l.takeWhile isWordChar with
  | [] => none
  | _ :: _ =>
    match (l.dropWhile isWordChar).dropWhile isSpaceChar with
    | '=' :: r3 =>
      match r3.dropWhile isSpaceChar with
      | q :: r5 =>
        if q == dquoteChar || q == squoteChar then
          match r5.dropWhile (fun d => !(d == dquoteChar || d == squoteChar)) with
          | _ :: r7 => some r7
          | [] => none
        else none
      | [] => none
    | _ => none

/-- Global replacement by "" for `/on\w+\s*=\s*["'][^"']*["']/gi`
(quoted inline event handlers). -/
def stripOnAttrsQuotedF : Nat → List Char → List Char
  | 0, l => l
  | _ + 1, [] => []
  | fuel + 1, l@(c :: rest) =>
    if ciStartsWith l ("on".toList) then
      match matchOnAttrQuoted (l.drop 2) with
      | some rem => stripOnAttrsQuotedF fuel rem
      | none => c :: stripOnAttrsQuotedF fuel rest
    else c :: stripOnAttrsQuotedF fuel rest

/-- Attempts to match the tail of `/on\w+\s*=\s*[^\s>]*/gi` right after
its leading `on`. -/
def matchOnAttrBare (l : List Char) : Option (List Char) :=
  match l.takeWhile isWordChar with
  | [] => none
  | _ :: _ =>
    match (l.dropWhile isWordChar).dropWhile isSpaceChar with
    | '=' :: r3 =>
      some ((r3.dropWhile isSpaceChar).dropWhile
        (fun d => !(isSpaceChar d || d == '>')))
    | _ => none

/-- Global replacement by "" for `/on\w+\s*=\s*[^\s>]*/gi`
(unquoted inline event handlers). -/
def stripOnAttrsBareF : Nat → List Char → List Char
  | 0, l => l
  | _ + 1, [] => []
  | fuel + 1, l@(c :: rest) =>
    if ciStartsWith l ("on".toList) then
      match matchOnAttrBare (l.drop 2) with
      | some rem => stripOnAttrsBareF fuel rem
      | none => c :: stripOnAttrsBareF fuel rest
    else c :: stripOnAttrsBareF fuel rest

/-- Global replacement by "" for `/javascript:/gi`. -/
def stripJsProtoF : Nat → List Char → List Char
  | 0, l => l
  | _ + 1, [] => []
  | fuel + 1, l@(c :: rest) =>
    if ciStartsWith l ("javascript:".toList) then stripJsProtoF fuel (l.drop 11)
    else c :: stripJsProtoF fuel rest

/-- Position of the last whitespace character in `zone` that is directly
followed by a case-insensitive `data:` (the greedy `[^>]*` of the
capturing group stretches to the last such split). -/
def lastDataSplit : List Char → Nat → Option Nat → Option Nat
  | [], _, best => best
  | c :: rest, i, best =>
    if isSpaceChar c && ciStartsWith rest ("data:".toList) then
      lastDataSplit rest (i + 1) (some i)
    else lastDataSplit rest (i + 1) best

/-- Global replacement by `$1>` for `/(<(?!img)[^>]*)\sdata:[^>]*>/gi`:
a match is a `<` not followed by a case-insensitive `img`, whose
`>`-free tag zone contains a whitespace directly followed by `data:`;
the replacement keeps the `<`, the zone up to (excluding) the last such
whitespace, and restores the `>`. -/
def stripDataAttrsF : Nat → List Char → List Char
  | 0, l => l
  | _ + 1, [] => []
  | fuel + 1, c :: rest =>
    if c == '<' && !(ciStartsWith rest ("img".toList)) then
      match rest.dropWhile (fun d => !(d == '>')) with
      | [] => c :: stripDataAttrsF fuel rest
      | _ :: afterGt =>
        match lastDataSplit (rest.takeWhile (fun d => !(d == '>'))) 0 none with
        | some i =>
          c :: ((rest.takeWhile (fun d => !(d == '>'))).take i ++
            '>' :: stripDataAttrsF fuel afterGt)
        | none => c :: stripDataAttrsF fuel rest
    else c :: stripDataAttrsF fuel rest

/-- `sanitizeHtml` from `sendEmail/index.ts`: the five chained
`replace` calls (script blocks, quoted event handlers, unquoted event
handlers, `javascript:` scheme, non-image `data:` attributes); a falsy
(empty) input returns "". -/
def sanitizeHtml (html : String) : String :=
  if html == "" then "" else
  let s0 := html.toList
  let s1 := stripScriptsF s0.length s0
  let s2 := stripOnAttrsQuotedF s1.length s1
  let s3 := stripOnAttrsBareF s2.length s2
  let s4 := stripJsProtoF s3.length s3
  String.mk (stripDataAttrsF s4.length s4)

/-- The uppercase alphabet of `generateSecurePassword`. -/
def uppercase : List Char := "ABCDEFGHIJKLMNOPQRSTUVWXYZ".toList

/-- The lowercase alphabet of `generateSecurePassword`. -/
def lowercase : List Char := "abcdefghijklmnopqrstuvwxyz".toList

/-- The digit alphabet of `generateSecurePassword`. -/
def numbers : List Char := "0123456789".toList

/-- The symbol alphabet of `generateSecurePassword`. -/
def symbols : List Char := "!@#$%^&*".toList

/-- `allChars = uppercase + lowercase + numbers + symbols`. -/
def allChars : List Char := uppercase ++ lowercase ++ numbers ++ symbols

/-- The password built by `generateSecurePassword`
(`resetFreelancerPassword.ts`) before its final shuffle, with the `i`-th
`crypto.randomInt(n)` draw modelled as `r i % n` (total, and realising
every value below `n`): one forced character from each of the four
classes, then twelve draws from `allChars`.  The trailing
`.sort(() => crypto.randomInt(3) - 1)` shuffle is modelled separately as
an arbitrary permutation of this list. -/
def generateSecurePassword (r : Nat → Nat) : List Char :=
  [uppercase.getD (r 0 % uppercase.length) ' ',
   lowercase.getD (r 1 % lowercase.length) ' ',
   numbers.getD (r 2 % numbers.length) ' ',
   symbols.getD (r 3 % symbols.length) ' '] ++
  (List.range 12).map (fun i => allChars.getD (r (4 + i) % allChars.length) ' ')

/-- ASCII model of `String.prototype.toLowerCase` (the handler only
compares against the ASCII literals "yes"/"no"). -/
def asciiLowerStr (s : String) : String :=
  String.mk (s.toList.map asciiLowerChar)

/-- The `manageLicense` request payload; `none` models an absent
(undefined) JSON field. -/
structure LicenseRequest where
  userEmail : Option String := none
  entraUPN : Option String := none
  entraObjectId : Option String := none
  firstName : Option String := none
  lastName : Option String := none
  isActive : Option Bool := none
deriving DecidableEq, Repr

/-- The `handleActivityResponse` webhook payload. -/
structure ActivityRequest where
  response : Option String := none
  supplierEmail : Option String := none
  supplierName : Option String := none
  firstName : Option String := none
  entraObjectId : Option String := none
  sharePointItemId : Option String := none
  requestedByEmail : Option String := none
deriving DecidableEq, Repr

/-- The `resetFreelancerPassword` request payload. -/
structure ResetRequest where
  userPrincipalName : Option String := none
  userId : Option String := none
  firstName : Option String := none
  lastName : Option String := none
  personalEmail : Option String := none
deriving DecidableEq, Repr

/-- The `manageLicense` handler (`manageLicense.ts`): validate, resolve
the user, reject an empty resolved id, then add or remove the group
membership according to `isActive`, mapping any caught error through the
catch block. -/
def manageLicense (env : GraphEnv) (req : LicenseRequest) :
    HandlerResponse × List RemoteCall :=
  if !(truthy req.userEmail) || !(truthy req.firstName) ||
      !(truthy req.lastName) || req.isActive.isNone then
    ({ status := 400, success := false,
       error := some "Missing required fields: userEmail, firstName, lastName, isActive" },
     [])
  else
    match findOrCreateUser env req.entraObjectId req.entraUPN
        (req.userEmail.getD "") (req.firstName.getD "") (req.lastName.getD "") with
    | (.error e, t1) => (manageLicenseErrorResponse e, t1)
    | (.ok user, t1) =>
      if user.id == "" then
        (manageLicenseErrorResponse
          { message := some "Failed to find or create user in Entra ID" }, t1)
      else
        let isActive := req.isActive.getD false
        let (memRes, t2) :=
          if isActive then addUserToGroup env user.id
          else removeUserFromGroup env user.id
        match memRes with
        | .error e => (manageLicenseErrorResponse e, t1 ++ t2)
        | .ok _ =>
          ({ status := 200, success := true,
             action := some (if isActive then "added" else "removed"),
             message := some (if isActive then "User added to Office 365 E1 group"
               else "User removed from Office 365 E1 group"),
             userPrincipalName := some user.userPrincipalName,
             userId := some user.id, timestamp := true },
           t1 ++ t2)

/-- `getSharePointSiteId`: the site-id lookup; failures are rethrown. -/
def getSharePointSiteId (env : GraphEnv) :
    Except GraphError String × List RemoteCall :=
  (env.getSite, [RemoteCall.siteLookup])

/-- `updateSharePointItem`: patches the list item fields (the constant
field maps are elided from the environment key); failures rethrown. -/
def updateSharePointItem (env : GraphEnv) (_siteId itemId : String) :
    Except GraphError Unit × List RemoteCall :=
  (env.patchListItem itemId, [RemoteCall.itemPatch itemId])

/-- `sendConfirmationEmail`: sends the thank-you mail to the supplier
and swallows any failure (only the trace matters to callers). -/
def sendConfirmationEmail (env : GraphEnv) (recipientEmail : String) :
    List RemoteCall :=
  match env.sendMail recipientEmail with
  | .ok _ => [RemoteCall.sendMailTo recipientEmail]
  | .error _ => [RemoteCall.sendMailTo recipientEmail]

/-- `sendManagerNotification`: sends the deactivation notice to the
manager and swallows any failure. -/
def sendManagerNotification (env : GraphEnv) (managerEmail : String) :
    List RemoteCall :=
  match env.sendMail managerEmail with
  | .ok _ => [RemoteCall.sendMailTo managerEmail]
  | .error _ => [RemoteCall.sendMailTo managerEmail]

/-- The `handleActivityResponse` catch block: always HTTP 500, the error
message as `error`, the stringified error as `details` (modelled by the
message text), and no timestamp field. -/
def handleActivityErrorResponse (e : GraphError) : HandlerResponse :=
  { status := 500, success := false,
    error := some (e.message.getD "Internal server error"),
    details := some (e.message.getD ""), timestamp := false }

/-- The `handleActivityResponse` handler (`handleActivityResponse.ts`):
validate, look up the SharePoint site, then branch on the lower-cased response:
"yes" patches the item and sends a (non-fatal) confirmation mail; "no"
removes the group membership, patches the item, and sends a (non-fatal)
manager notification only when `requestedByEmail` is truthy; any other
response value is a 400 issued after the site lookup. -/
def handleActivityResponse (env : GraphEnv) (req : ActivityRequest) :
    HandlerResponse × List RemoteCall :=
  if !(truthy req.response) || !(truthy req.supplierEmail) ||
      !(truthy req.entraObjectId) || !(truthy req.sharePointItemId) then
    ({ status := 400, success := false,
       error := some "Missing required fields: response, supplierEmail, entraObjectId, sharePointItemId" },
     [])
  else
    let response := asciiLowerStr (req.response.getD "")
    let (siteRes, t1) := getSharePointSiteId env
    match siteRes with
    | .error e => (handleActivityErrorResponse e, t1)
    | .ok siteId =>
      if response == "yes" then
        let (patchRes, t2) := updateSharePointItem env siteId (req.sharePointItemId.getD "")
        match patchRes with
        | .error e => (handleActivityErrorResponse e, t1 ++ t2)
        | .ok _ =>
          let t3 := sendConfirmationEmail env (req.supplierEmail.getD "")
          ({ status := 200, success := true, action := some "activity_confirmed",
             message := some "Activity confirmed and SharePoint updated",
             timestamp := true },
           t1 ++ t2 ++ t3)
      else if response == "no" then
        let (remRes, t2) := removeUserFromGroup env (req.entraObjectId.getD "")
        match remRes with
        | .error e => (handleActivityErrorResponse e, t1 ++ t2)
        | .ok _ =>
          let (patchRes, t3) := updateSharePointItem env siteId (req.sharePointItemId.getD "")
          match patchRes with
          | .error e => (handleActivityErrorResponse e, t1 ++ t2 ++ t3)
          | .ok _ =>
            let t4 := if truthy req.requestedByEmail then
                sendManagerNotification env (req.requestedByEmail.getD "")
              else []
            ({ status := 200, success := true, action := some "license_removed",
               message := some "License removed and manager notified",
               timestamp := true },
             t1 ++ t2 ++ t3 ++ t4)
      else
        ({ status := 400, success := false,
           error := some ("Invalid response value: " ++ req.response.getD "" ++
             ". Expected \x27yes\x27 or \x27no\x27.") },
         t1)

/-- The `resetFreelancerPassword` catch block: graph error code
`Request_ResourceNotFound` maps to 404; status 401 or code
`InvalidAuthenticationToken` to 401; status 403 to 403; status 429 to
429; anything else to 500. -/
def resetPasswordErrorResponse (e : GraphError) : HandlerResponse :=
  let errorMessage := e.message.getD "Unknown error"
  let statusAndMessage : Nat × String :=
    if e.code == some "Request_ResourceNotFound" then
      (404, "User not found. Please verify the user exists in Entra ID.")
    else if e.statusCode == some 401 || e.code == some "InvalidAuthenticationToken" then
      (401, "Authentication failed. Please check app permissions.")
    else if e.statusCode == some 403 then
      (403, "Insufficient permissions to reset passwords.")
    else if e.statusCode == some 429 then
      (429, "Rate limit exceeded. Please try again later.")
    else
      (500, "An unexpected error occurred while resetting the password.")
  { status := statusAndMessage.1, success := false,
    error := some statusAndMessage.2, details := some errorMessage,
    timestamp := true }

/-- `sendPasswordResetEmail`: sends the credentials mail to the personal
address; it has no catch of its own, so a failure propagates. -/
def sendPasswordResetEmail (env : GraphEnv) (personalEmail : String) :
    Except GraphError Unit × List RemoteCall :=
  (env.sendMail personalEmail, [RemoteCall.sendMailTo personalEmail])

/-- The `resetFreelancerPassword` handler
(`resetFreelancerPassword.ts`): validate (one of UPN or user id plus
names and the personal email), look up the user (a 404 has its own
dedicated early return), patch the password profile with a freshly
generated password (randomness `r`, shuffle function `shuffle`), then
send the notification mail; a mail failure propagates to the catch even
though the password was already patched. -/
def resetFreelancerPassword (env : GraphEnv) (r : Nat → Nat)
    (shuffle : List Char → List Char) (req : ResetRequest) :
    HandlerResponse × List RemoteCall :=
  if (!(truthy req.userPrincipalName) && !(truthy req.userId)) ||
      !(truthy req.firstName) || !(truthy req.lastName) ||
      !(truthy req.personalEmail) then
    ({ status := 400, success := false,
       error := some "Missing required fields: (userPrincipalName OR userId), firstName, lastName, personalEmail" },
     [])
  else
    let userIdentifier := if truthy req.userPrincipalName then
        req.userPrincipalName.getD ""
      else req.userId.getD ""
    let t1 := [RemoteCall.userLookup userIdentifier]
    match env.getUser userIdentifier with
    | .error e =>
      if e.statusCode == some 404 then
        ({ status := 404, success := false, error := some "User not found",
           details := some ("No user found with identifier: " ++ userIdentifier),
           timestamp := true }, t1)
      else (resetPasswordErrorResponse e, t1)
    | .ok user =>
      let newPassword := String.mk (shuffle (generateSecurePassword r))
      let t2 := [RemoteCall.passwordPatch user.id]
      match env.patchUserPassword user.id with
      | .error e => (resetPasswordErrorResponse e, t1 ++ t2)
      | .ok _ =>
        let (sendRes, t3) := sendPasswordResetEmail env (req.personalEmail.getD "")
        match sendRes with
        | .error e => (resetPasswordErrorResponse e, t1 ++ t2 ++ t3)
        | .ok _ =>
          ({ status := 200, success := true, newPassword := some newPassword,
             userPrincipalName := some user.userPrincipalName,
             timestamp := true }, t1 ++ t2 ++ t3)

/-- The conflict error the directory raises when the member reference
already exists. -/
def eAlreadyExists : GraphError :=
  { statusCode := some 400,
    message := some "One or more added object references already exist for the following modified properties" }

/-- Environment in which the add-member call fails with the genuine
already-exists conflict. -/
def envAddConflict : GraphEnv :=
  { envRemove404 with postGroupMember := fun _ => .error eAlreadyExists }

/-- Environment for the validation witnesses and the activity-response
success paths: every remote operation succeeds. -/
def envActivityOk : GraphEnv :=
  { envRemove404 with deleteGroupMember := fun _ => .ok () }

/-- The mail-send failure used by the notification claims. -/
def eSendFail : GraphError :=
  { statusCode := some 503, message := some "Mail send failed" }

/-- Environment in which the user lookup and the password patch succeed
but every mail send fails. -/
def envResetSendFail : GraphEnv :=
  { envActivityOk with
    getUser := fun _ =>
      .ok { id := "uid-1", userPrincipalName := "u@x.com", displayName := "U" },
    sendMail := fun _ => .error eSendFail }

/-- A valid password-reset request. -/
def resetReq : ResetRequest :=
  { userPrincipalName := some "u@x.com", firstName := some "A",
    lastName := some "B", personalEmail := some "p@x.com" }

/-- Environment in which the activity-response mutations succeed but
every mail send fails. -/
def envActivitySendFail : GraphEnv :=
  { envActivityOk with sendMail := fun _ => .error eSendFail }

/-- A valid "yes" webhook request. -/
def reqYesW : ActivityRequest :=
  { response := some "yes", supplierEmail := some "s@x.com",
    entraObjectId := some "oid-1", sharePointItemId := some "42" }

/-- A valid "no" webhook request with a manager email. -/
def reqNoW : ActivityRequest :=
  { response := some "no", supplierEmail := some "s@x.com",
    entraObjectId := some "oid-1", sharePointItemId := some "42",
    requestedByEmail := some "m@x.com" }

/-- C7: `removeUserFromGroup` issues the delete-relationship call; a
remote 404 (user already absent) is treated as success; any other remote
error propagates unchanged; a successful remote delete is success. -/
theorem C7_removeMember (env : GraphEnv) (uid : String) :
    (removeUserFromGroup env uid).2 = [RemoteCall.groupMemberRemove uid] ∧
    (env.deleteGroupMember uid = .ok () →
      (removeUserFromGroup env uid).1 = .ok ()) ∧
    (∀ e : GraphError, env.deleteGroupMember uid = .error e →
      (e.statusCode = some 404 → (removeUserFromGroup env uid).1 = .ok ()) ∧
      (e.statusCode ≠ some 404 → (removeUserFromGroup env uid).1 = .error e)) := by
  refine ⟨?_, ?_, ?_⟩
  · cases h : env.deleteGroupMember uid
    · simp only [removeUserFromGroup, h]
      split <;> rfl
    · simp [removeUserFromGroup, h]
  · intro h
    simp [removeUserFromGroup, h]
  · intro e h
    constructor
    · intro h404
      simp [removeUserFromGroup, h, h404]
    · intro h404
      have : (e.statusCode == some 404) = false := by
        simpa [beq_iff_eq] using h404
      simp [removeUserFromGroup, h, this]

/-- C7 witness: removing a user who is not in the group (the remote
delete fails with 404) still returns success. -/
theorem C7_removeMember_witness :
    (removeUserFromGroup envRemove404 "u1").1 = .ok () :=
  ((C7_removeMember envRemove404 "u1").2.2
    { statusCode := some 404, message := some "Resource not found" } rfl).1 rfl

/-- C1 counterexample: the `manageLicense.ts` variant of `addUserToGroup`
swallows a 400 error whose code is `Request_BadRequest` even though its
message does not indicate that the relationship already exists, instead
of propagating it as the claim requires. -/
theorem C1_counterexample :
    msgIncludes eBadRequest.message "already exist" = false ∧
    msgIncludes eBadRequest.message "already a member" = false ∧
    (addUserToGroup envAddBadRequest "u1").1 = .ok () :=
  ⟨rfl, rfl, rfl⟩

/-- C1 (amended): both variants issue the create-relationship call and
return success when it succeeds.  When the remote call fails, the
`sendEmail/index.ts` variant swallows the error exactly when it is a 400
whose message contains "already exist"; the `manageLicense.ts` variant
swallows it exactly when it is a 400 whose message contains
"already exist" or "already a member" or whose error code is
`Request_BadRequest` (even when the message does not indicate an
existing membership); every error not swallowed propagates unchanged. -/
theorem C1_addMember_amended :
    (∀ (env : GraphEnv) uid,
      (addUserToGroup env uid).2 = [RemoteCall.groupMemberAdd uid] ∧
      (env.postGroupMember uid = .ok () → (addUserToGroup env uid).1 = .ok ())) ∧
    (∀ (env : GraphEnv) uid e, env.postGroupMember uid = .error e →
      ((addUserToGroup env uid).1 = .ok () ↔
        (e.statusCode = some 400 ∧
          (msgIncludes e.message "already exist" = true ∨
           msgIncludes e.message "already a member" = true ∨
           e.code = some "Request_BadRequest"))) ∧
      ((addUserToGroup env uid).1 ≠ .ok () →
        (addUserToGroup env uid).1 = .error e)) ∧
    (∀ (env : GraphEnv) uid e, env.queryGroupMember uid = .ok [] →
      env.postGroupMember uid = .error e →
      ((addUserToGroupV1 env uid).1 = .ok () ↔
        (e.statusCode = some 400 ∧ msgIncludes e.message "already exist" = true)) ∧
      ((addUserToGroupV1 env uid).1 ≠ .ok () →
        (addUserToGroupV1 env uid).1 = .error e)) := by
  refine ⟨?_, ?_, ?_⟩
  · intro env uid
    constructor
    · cases h : env.postGroupMember uid
      · simp only [addUserToGroup, h]
        split <;> rfl
      · simp [addUserToGroup, h]
    · intro h
      simp [addUserToGroup, h]
  · intro env uid e h
    constructor
    · simp only [addUserToGroup, h]
      split
      next hc =>
        simp only [Bool.and_eq_true, Bool.or_eq_true, beq_iff_eq] at hc
        simp only [true_iff]
        exact ⟨hc.1, by tauto⟩
      next hc =>
        simp only [Bool.and_eq_true, Bool.or_eq_true, beq_iff_eq,
          not_and_or, not_or] at hc
        simp only [reduceCtorEq, false_iff]
        tauto
    · intro hne
      simp only [addUserToGroup, h] at hne ⊢
      split at hne
      · simp at hne
      · split
        · simp_all
        · rfl
  · intro env uid e hq h
    constructor
    · simp only [addUserToGroupV1, hq, h]
      split
      next hc =>
        simp only [Bool.and_eq_true, beq_iff_eq] at hc
        simp [hc]
      next hc =>
        simp only [Bool.and_eq_true, beq_iff_eq, not_and_or] at hc
        simp only [reduceCtorEq, false_iff]
        tauto
    · intro hne
      simp only [addUserToGroupV1, hq, h] at hne ⊢
      split at hne
      · simp at hne
      · split
        · simp_all
        · rfl

/-- C4: when a (present, non-empty) `entraObjectId` hint resolves by the
direct point lookup, `findOrCreateUser` returns that user and its trace
is exactly that one lookup: no UPN lookup, no filtered search, no
invitation call. -/
theorem C4_resolveById (env : GraphEnv) (oid : String) (upnHint : Option String)
    (email firstName lastName : String) (u : UserRecord)
    (hoid : oid ≠ "") (hlookup : env.getUser oid = .ok u) :
    findOrCreateUser env (some oid) upnHint email firstName lastName =
      (.ok u, [RemoteCall.userLookup oid]) := by
  have ht : truthy (some oid) = true := by
    simp [truthy, hoid]
  simp [findOrCreateUser, ht, hlookup]

/-- C4 witness: with a concrete object id hint the resolver
short-circuits after the single point lookup. -/
theorem C4_resolveById_witness :
    findOrCreateUser envFoundById (some "oid-7") (some "upn-7") "a@b.com" "A" "B" =
      (.ok { id := "uid-7", userPrincipalName := "oid-7",
             mail := some "a@b.com", displayName := "A B" },
       [RemoteCall.userLookup "oid-7"]) :=
  C4_resolveById envFoundById "oid-7" (some "upn-7") "a@b.com" "A" "B" _
    (by decide) rfl

/-- C5: when the hint lookups (if any) fail, the filtered search comes
back empty, and the invitation call succeeds echoing the invited email,
both resolver variants issue exactly one invitation-creation call and
synthesize a record with id = the invited user's id, principalName = the
input email, displayName = firstName ++ " " ++ lastName.  (Fallback
creation is unconditionally enabled in both variants.) -/
theorem C5_fallbackCreate (env : GraphEnv) (oidHint upnHint : Option String)
    (email firstName lastName : String) (inv : InvitationResponse)
    (hoid : truthy oidHint = true → ∃ e, env.getUser (oidHint.getD "") = .error e)
    (hupn : truthy upnHint = true → ∃ e, env.getUser (upnHint.getD "") = .error e)
    (hsearch : env.searchUsers email = .ok [])
    (hinv : env.postInvitation email (firstName ++ " " ++ lastName) = .ok inv)
    (hecho : inv.invitedUserEmailAddress = email) :
    ((findOrCreateUser env oidHint upnHint email firstName lastName).1 =
        .ok { id := inv.invitedUserId, userPrincipalName := email,
              mail := some email,
              displayName := firstName ++ " " ++ lastName } ∧
      countInviteCalls (findOrCreateUser env oidHint upnHint email firstName lastName).2 = 1) ∧
    ((findOrCreateUserV1 env email firstName lastName).1 =
        .ok { id := inv.invitedUserId, userPrincipalName := email,
              mail := some email,
              displayName := firstName ++ " " ++ lastName } ∧
      countInviteCalls (findOrCreateUserV1 env email firstName lastName).2 = 1) := by
  have hcore : ∀ t : List RemoteCall,
      (searchOrInvite env email firstName lastName t).1 =
        .ok { id := inv.invitedUserId, userPrincipalName := email,
              mail := some email,
              displayName := firstName ++ " " ++ lastName } ∧
      countInviteCalls (searchOrInvite env email firstName lastName t).2 =
        countInviteCalls t + 1 := by
    intro t
    simp [searchOrInvite, hsearch, hinv, hecho, countInviteCalls, List.filter_append]
  have hmid : ∀ t : List RemoteCall,
      (tryUpnThenSearch env upnHint email firstName lastName t).1 =
        .ok { id := inv.invitedUserId, userPrincipalName := email,
              mail := some email,
              displayName := firstName ++ " " ++ lastName } ∧
      countInviteCalls (tryUpnThenSearch env upnHint email firstName lastName t).2 =
        countInviteCalls t + 1 := by
    intro t
    by_cases hu : truthy upnHint = true
    · obtain ⟨e, he⟩ := hupn hu
      have hcount : countInviteCalls (t ++ [RemoteCall.userLookup (upnHint.getD "")]) =
          countInviteCalls t := by
        simp [countInviteCalls, List.filter_append]
      rw [tryUpnThenSearch, if_pos hu]
      simp only [he]
      rw [(hcore _).2, hcount]
      exact ⟨(hcore _).1, rfl⟩
    · rw [tryUpnThenSearch, if_neg hu]
      exact hcore t
  constructor
  · by_cases ho : truthy oidHint = true
    · obtain ⟨e, he⟩ := hoid ho
      have hnil : countInviteCalls [RemoteCall.userLookup (oidHint.getD "")] = 0 := by
        simp [countInviteCalls]
      rw [findOrCreateUser, if_pos ho]
      simp only [he]
      refine ⟨(hmid _).1, ?_⟩
      rw [(hmid _).2, hnil]
    · rw [findOrCreateUser, if_neg ho]
      have h0 : countInviteCalls ([] : List RemoteCall) = 0 := rfl
      refine ⟨(hmid _).1, ?_⟩
      rw [(hmid _).2, h0]
  · have h0 : countInviteCalls ([] : List RemoteCall) = 0 := rfl
    refine ⟨(hcore _).1, ?_⟩
    rw [findOrCreateUserV1, (hcore _).2, h0]

/-- C5 witness: a concrete resolution with no matching user creates one
guest invitation and synthesizes the expected record. -/
theorem C5_fallbackCreate_witness :
    (findOrCreateUser envNoUser (some "oid-9") none "a@b.com" "A" "B").1 =
      .ok { id := "guest-1", userPrincipalName := "a@b.com",
            mail := some "a@b.com", displayName := "A B" } ∧
    countInviteCalls (findOrCreateUser envNoUser (some "oid-9") none "a@b.com" "A" "B").2 = 1 :=
  (C5_fallbackCreate envNoUser (some "oid-9") none "a@b.com" "A" "B"
    { invitedUserId := "guest-1", invitedUserEmailAddress := "a@b.com" }
    (fun _ => ⟨_, rfl⟩) (fun h => by simp [truthy] at h) rfl rfl rfl).1

/-- C3 counterexample: a caught error carrying remote status 429 is
mapped to HTTP 500, not 429, by the catch block of the license-handler
variant in `sendEmail/index.ts` (it has no 429 branch), contradicting
the claimed mapping table for that handler. -/
theorem C3_counterexample :
    (manageLicenseV1ErrorResponse
      { statusCode := some 429, message := some "Too many requests" }).status = 500 ∧
    (manageLicenseErrorResponse
      { statusCode := some 429, message := some "Too many requests" }).status = 429 :=
  ⟨rfl, rfl⟩

/-- C3 (amended): the `manageLicense.ts` catch block maps remote status
401/403/404/429 to the same HTTP status, anything else to 500; the
`sendEmail/index.ts` license-variant catch block maps only 401/403/404
and sends every other status, including 429, to 500.  Both bodies carry
`success:false`, `error`, `details`, and a timestamp. -/
theorem C3_statusMapping_amended (e : GraphError) :
    ((manageLicenseErrorResponse e).status =
      if e.statusCode = some 401 then 401
      else if e.statusCode = some 403 then 403
      else if e.statusCode = some 404 then 404
      else if e.statusCode = some 429 then 429
      else 500) ∧
    ((manageLicenseV1ErrorResponse e).status =
      if e.statusCode = some 401 then 401
      else if e.statusCode = some 403 then 403
      else if e.statusCode = some 404 then 404
      else 500) ∧
    (manageLicenseErrorResponse e).success = false ∧
    ((manageLicenseErrorResponse e).error).isSome = true ∧
    ((manageLicenseErrorResponse e).details).isSome = true ∧
    (manageLicenseErrorResponse e).timestamp = true ∧
    (manageLicenseV1ErrorResponse e).success = false ∧
    ((manageLicenseV1ErrorResponse e).error).isSome = true ∧
    ((manageLicenseV1ErrorResponse e).details).isSome = true ∧
    (manageLicenseV1ErrorResponse e).timestamp = true := by
  refine ⟨?_, ?_, rfl, rfl, rfl, rfl, rfl, rfl, rfl, rfl⟩
  · simp only [manageLicenseErrorResponse, beq_iff_eq]
    split_ifs <;> simp_all
  · simp only [manageLicenseV1ErrorResponse, beq_iff_eq]
    split_ifs <;> simp_all

/-- C8: the three example behaviors of the sanitizer: the script block
is removed leaving `Hello`; the `javascript:` scheme is stripped from
the anchor href while the tag survives; the image `data:` URI is left
untouched. -/
theorem C8_sanitizeExamples :
    sanitizeHtml "<script>alert(1)</script>Hello" = "Hello" ∧
    sanitizeHtml "<a href=\"javascript:evil()\">x</a>" = "<a href=\"evil()\">x</a>" ∧
    sanitizeHtml "<img src=\"data:image/png;base64,AAA\">" =
      "<img src=\"data:image/png;base64,AAA\">" :=
  ⟨rfl, rfl, rfl⟩

/-- An in-range `getD` returns an element of the list. -/
theorem getD_mem_of_lt (l : List Char) (i : Nat) (d : Char)
    (h : i < l.length) : l.getD i d ∈ l := by
  induction l generalizing i with
  | nil => simp at h
  | cons a as ih =>
    cases i with
    | zero => simp
    | succ n =>
      simp only [List.getD_cons_succ, List.mem_cons]
      exact Or.inr (ih n (by simpa using h))

/-- C9: for every sequence of random draws and every permutation the
final shuffle may produce, the generated password has exactly 16
characters, all drawn from the four classes, with at least one character
from each class. -/
theorem C9_passwordGenerator (r : Nat → Nat) (shuffled : List Char)
    (hperm : shuffled.Perm (generateSecurePassword r)) :
    shuffled.length = 16 ∧
    (∀ c ∈ shuffled, c ∈ allChars) ∧
    (∃ c ∈ shuffled, c ∈ uppercase) ∧
    (∃ c ∈ shuffled, c ∈ lowercase) ∧
    (∃ c ∈ shuffled, c ∈ numbers) ∧
    (∃ c ∈ shuffled, c ∈ symbols) := by
  have hu : uppercase.getD (r 0 % uppercase.length) ' ' ∈ uppercase :=
    getD_mem_of_lt _ _ _ (Nat.mod_lt _ (by decide))
  have hl : lowercase.getD (r 1 % lowercase.length) ' ' ∈ lowercase :=
    getD_mem_of_lt _ _ _ (Nat.mod_lt _ (by decide))
  have hn : numbers.getD (r 2 % numbers.length) ' ' ∈ numbers :=
    getD_mem_of_lt _ _ _ (Nat.mod_lt _ (by decide))
  have hs : symbols.getD (r 3 % symbols.length) ' ' ∈ symbols :=
    getD_mem_of_lt _ _ _ (Nat.mod_lt _ (by decide))
  refine ⟨?_, ?_, ?_, ?_, ?_, ?_⟩
  · rw [hperm.length_eq]
    simp [generateSecurePassword]
  · intro c hc
    rw [hperm.mem_iff] at hc
    simp only [generateSecurePassword, List.mem_append, List.mem_cons,
      List.not_mem_nil, or_false, List.mem_map, List.mem_range] at hc
    rcases hc with (hc | hc | hc | hc) | ⟨i, _, hc⟩
    · exact hc ▸ List.mem_append.mpr (Or.inl (List.mem_append.mpr
        (Or.inl (List.mem_append.mpr (Or.inl hu)))))
    · exact hc ▸ List.mem_append.mpr (Or.inl (List.mem_append.mpr
        (Or.inl (List.mem_append.mpr (Or.inr hl)))))
    · exact hc ▸ List.mem_append.mpr (Or.inl (List.mem_append.mpr (Or.inr hn)))
    · exact hc ▸ List.mem_append.mpr (Or.inr hs)
    · exact hc ▸ getD_mem_of_lt _ _ _ (Nat.mod_lt _ (by decide))
  · exact ⟨_, hperm.mem_iff.mpr (by simp [generateSecurePassword]), hu⟩
  · refine ⟨_, hperm.mem_iff.mpr ?_, hl⟩
    simp [generateSecurePassword]
  · refine ⟨_, hperm.mem_iff.mpr ?_, hn⟩
    simp [generateSecurePassword]
  · refine ⟨_, hperm.mem_iff.mpr ?_, hs⟩
    simp [generateSecurePassword]

/-- C9 witness: the all-zero draw sequence with the identity shuffle. -/
theorem C9_passwordGenerator_witness :
    (generateSecurePassword (fun _ => 0)).Perm (generateSecurePassword (fun _ => 0)) ∧
    ((generateSecurePassword (fun _ => 0)).length = 16 ∧
      (∀ c ∈ generateSecurePassword (fun _ => 0), c ∈ allChars) ∧
      (∃ c ∈ generateSecurePassword (fun _ => 0), c ∈ uppercase) ∧
      (∃ c ∈ generateSecurePassword (fun _ => 0), c ∈ lowercase) ∧
      (∃ c ∈ generateSecurePassword (fun _ => 0), c ∈ numbers) ∧
      (∃ c ∈ generateSecurePassword (fun _ => 0), c ∈ symbols)) :=
  ⟨List.Perm.refl _,
    C9_passwordGenerator (fun _ => 0) _ (List.Perm.refl _)⟩

/-- C1 witness: on the genuine already-exists conflict both variants
return success. -/
theorem C1_addMember_amended_witness :
    (addUserToGroup envAddConflict "u1").1 = .ok () ∧
    (addUserToGroupV1 envAddConflict "u1").1 = .ok () :=
  ⟨((C1_addMember_amended.2.1 envAddConflict "u1" eAlreadyExists rfl).1).mpr
      ⟨rfl, Or.inl rfl⟩,
    ((C1_addMember_amended.2.2 envAddConflict "u1" eAlreadyExists rfl rfl).1).mpr
      ⟨rfl, rfl⟩⟩

/-- C6: for every license-management or activity-webhook payload with a
required field absent, the handler returns HTTP 400 with `success:false`
and an empty remote-call trace (no token acquisition or graph call is
reached). -/
theorem C6_validationNoRemoteCalls (env : GraphEnv)
    (lreq : LicenseRequest) (areq : ActivityRequest)
    (hl : lreq.userEmail = none ∨ lreq.firstName = none ∨
      lreq.lastName = none ∨ lreq.isActive = none)
    (ha : areq.response = none ∨ areq.supplierEmail = none ∨
      areq.entraObjectId = none ∨ areq.sharePointItemId = none) :
    ((manageLicense env lreq).1.status = 400 ∧
     (manageLicense env lreq).1.success = false ∧
     (manageLicense env lreq).2 = []) ∧
    ((handleActivityResponse env areq).1.status = 400 ∧
     (handleActivityResponse env areq).1.success = false ∧
     (handleActivityResponse env areq).2 = []) := by
  have hlc : (!(truthy lreq.userEmail) || !(truthy lreq.firstName) ||
      !(truthy lreq.lastName) || lreq.isActive.isNone) = true := by
    rcases hl with h | h | h | h <;> simp [h, truthy]
  have hac : (!(truthy areq.response) || !(truthy areq.supplierEmail) ||
      !(truthy areq.entraObjectId) || !(truthy areq.sharePointItemId)) = true := by
    rcases ha with h | h | h | h <;> simp [h, truthy]
  constructor
  · rw [manageLicense, if_pos hlc]
    exact ⟨rfl, rfl, rfl⟩
  · rw [handleActivityResponse, if_pos hac]
    exact ⟨rfl, rfl, rfl⟩

/-- C6 witness: the empty payloads are rejected with 400 and an empty
trace. -/
theorem C6_validationNoRemoteCalls_witness :
    (manageLicense envActivityOk {}).1.status = 400 ∧
    (manageLicense envActivityOk {}).2 = [] ∧
    (handleActivityResponse envActivityOk {}).1.status = 400 ∧
    (handleActivityResponse envActivityOk {}).2 = [] :=
  let h := C6_validationNoRemoteCalls envActivityOk {} {} (Or.inl rfl) (Or.inl rfl)
  ⟨h.1.1, h.1.2.2, h.2.1, h.2.2.2⟩

/-- C10: a webhook request whose response lower-cases to "no" and whose
`requestedByEmail` is absent performs the group removal and the record
patch, sends no mail at all (in particular no manager notification), and
returns HTTP 200 with action `license_removed`. -/
theorem C10_noBranchWithoutManagerEmail (env : GraphEnv)
    (req : ActivityRequest) (s oid item siteId : String)
    (hresp : req.response = some s) (hs : asciiLowerStr s = "no")
    (hmail : truthy req.supplierEmail = true)
    (hoidf : req.entraObjectId = some oid) (hoid : oid ≠ "")
    (hitemf : req.sharePointItemId = some item) (hitem : item ≠ "")
    (hnone : req.requestedByEmail = none)
    (hsite : env.getSite = .ok siteId)
    (hrem : env.deleteGroupMember oid = .ok ())
    (hpatch : env.patchListItem item = .ok ()) :
    (handleActivityResponse env req).1 =
      { status := 200, success := true, action := some "license_removed",
        message := some "License removed and manager notified",
        timestamp := true } ∧
    (handleActivityResponse env req).2 =
      [RemoteCall.siteLookup, RemoteCall.groupMemberRemove oid,
       RemoteCall.itemPatch item] ∧
    ∀ a, RemoteCall.sendMailTo a ∉ (handleActivityResponse env req).2 := by
  have hs0 : s ≠ "" := by
    intro h
    rw [h] at hs
    exact absurd hs (by decide)
  have h1 : truthy req.response = true := by
    rw [hresp]
    simp [truthy, hs0]
  have h3 : truthy req.entraObjectId = true := by
    rw [hoidf]
    simp [truthy, hoid]
  have h4 : truthy req.sharePointItemId = true := by
    rw [hitemf]
    simp [truthy, hitem]
  have hyes : (asciiLowerStr s == "yes") = false := by
    rw [hs]
    decide
  have hmain : handleActivityResponse env req =
      ({ status := 200, success := true, action := some "license_removed",
         message := some "License removed and manager notified",
         timestamp := true },
       [RemoteCall.siteLookup, RemoteCall.groupMemberRemove oid,
        RemoteCall.itemPatch item]) := by
    rw [handleActivityResponse, if_neg (by simp [h1, hmail, h3, h4])]
    simp only [hresp, hoidf, hitemf, Option.getD_some, getSharePointSiteId,
      hsite, hyes, Bool.false_eq_true, if_false, hs, removeUserFromGroup,
      hrem, updateSharePointItem, hpatch, hnone, truthy]
    simp
  refine ⟨by rw [hmain], by rw [hmain], ?_⟩
  intro a
  rw [hmain]
  simp

/-- C10 witness: a concrete "No" response without `requestedByEmail`. -/
theorem C10_noBranchWithoutManagerEmail_witness :
    (handleActivityResponse envActivityOk
      { response := some "No", supplierEmail := some "s@x.com",
        supplierName := some "S", firstName := some "F",
        entraObjectId := some "oid-1", sharePointItemId := some "42",
        requestedByEmail := none }).1 =
      { status := 200, success := true, action := some "license_removed",
        message := some "License removed and manager notified",
        timestamp := true } ∧
    (handleActivityResponse envActivityOk
      { response := some "No", supplierEmail := some "s@x.com",
        supplierName := some "S", firstName := some "F",
        entraObjectId := some "oid-1", sharePointItemId := some "42",
        requestedByEmail := none }).2 =
      [RemoteCall.siteLookup, RemoteCall.groupMemberRemove "oid-1",
       RemoteCall.itemPatch "42"] ∧
    ∀ a, RemoteCall.sendMailTo a ∉ (handleActivityResponse envActivityOk
      { response := some "No", supplierEmail := some "s@x.com",
        supplierName := some "S", firstName := some "F",
        entraObjectId := some "oid-1", sharePointItemId := some "42",
        requestedByEmail := none }).2 :=
  C10_noBranchWithoutManagerEmail envActivityOk _ "No" "oid-1" "42" "site-1"
    rfl rfl rfl rfl (by decide) rfl (by decide) rfl rfl rfl rfl

/-- C2 counterexample: in `resetFreelancerPassword` the notification
failure occurs after the password patch has already succeeded (the
patch call is in the trace), yet the handler returns `success:false`
with HTTP 500 instead of the claimed success response. -/
theorem C2_counterexample :
    (resetFreelancerPassword envResetSendFail (fun _ => 0) id resetReq).1.success = false ∧
    (resetFreelancerPassword envResetSendFail (fun _ => 0) id resetReq).1.status = 500 ∧
    RemoteCall.passwordPatch "uid-1" ∈
      (resetFreelancerPassword envResetSendFail (fun _ => 0) id resetReq).2 :=
  ⟨rfl, rfl, by decide⟩

/-- C2 (amended): in `handleActivityResponse` both notification sends
are non-fatal — whatever error the mail call returns, the handler still
returns HTTP 200 with `success:true` and the branch action.  In
`resetFreelancerPassword`, by contrast, a mail failure after the
password patch has already succeeded propagates to the catch block: the
handler returns the mapped error response with `success:false` even
though the password-patch call was already issued. -/
theorem C2_notification_amended :
    (∀ (env : GraphEnv) (req : ActivityRequest) (s item siteId : String) (e : GraphError),
      req.response = some s → asciiLowerStr s = "yes" →
      truthy req.supplierEmail = true → truthy req.entraObjectId = true →
      req.sharePointItemId = some item → item ≠ "" →
      env.getSite = .ok siteId → env.patchListItem item = .ok () →
      env.sendMail (req.supplierEmail.getD "") = .error e →
      (handleActivityResponse env req).1.status = 200 ∧
      (handleActivityResponse env req).1.success = true ∧
      (handleActivityResponse env req).1.action = some "activity_confirmed") ∧
    (∀ (env : GraphEnv) (req : ActivityRequest) (s oid item m siteId : String) (e : GraphError),
      req.response = some s → asciiLowerStr s = "no" →
      truthy req.supplierEmail = true →
      req.entraObjectId = some oid → oid ≠ "" →
      req.sharePointItemId = some item → item ≠ "" →
      req.requestedByEmail = some m →
      env.getSite = .ok siteId →
      env.deleteGroupMember oid = .ok () →
      env.patchListItem item = .ok () →
      env.sendMail m = .error e →
      (handleActivityResponse env req).1.status = 200 ∧
      (handleActivityResponse env req).1.success = true ∧
      (handleActivityResponse env req).1.action = some "license_removed") ∧
    (∀ (env : GraphEnv) (r : Nat → Nat) (shuffle : List Char → List Char)
        (req : ResetRequest) (idf : String) (u : UserRecord) (e : GraphError),
      req.userPrincipalName = some idf → idf ≠ "" →
      truthy req.firstName = true → truthy req.lastName = true →
      truthy req.personalEmail = true →
      env.getUser idf = .ok u →
      env.patchUserPassword u.id = .ok () →
      env.sendMail (req.personalEmail.getD "") = .error e →
      (resetFreelancerPassword env r shuffle req).1 = resetPasswordErrorResponse e ∧
      (resetFreelancerPassword env r shuffle req).1.success = false ∧
      RemoteCall.passwordPatch u.id ∈ (resetFreelancerPassword env r shuffle req).2) := by
  refine ⟨?_, ?_, ?_⟩
  · intro env req s item siteId e hresp hs hmail h3 hitemf hitem hsite hpatch hsend
    have hs0 : s ≠ "" := by
      intro h
      rw [h] at hs
      exact absurd hs (by decide)
    have h1 : truthy req.response = true := by
      rw [hresp]
      simp [truthy, hs0]
    have h4 : truthy req.sharePointItemId = true := by
      rw [hitemf]
      simp [truthy, hitem]
    have hmain : (handleActivityResponse env req).1 =
        { status := 200, success := true, action := some "activity_confirmed",
          message := some "Activity confirmed and SharePoint updated",
          timestamp := true } := by
      rw [handleActivityResponse, if_neg (by simp [h1, hmail, h3, h4])]
      simp only [hresp, hitemf, Option.getD_some, getSharePointSiteId, hsite,
        hs, updateSharePointItem, hpatch]
      simp
    exact ⟨by rw [hmain], by rw [hmain], by rw [hmain]⟩
  · intro env req s oid item m siteId e hresp hs hmail hoidf hoid hitemf hitem
      hreqby hsite hrem hpatch hsend
    have hs0 : s ≠ "" := by
      intro h
      rw [h] at hs
      exact absurd hs (by decide)
    have h1 : truthy req.response = true := by
      rw [hresp]
      simp [truthy, hs0]
    have h3 : truthy req.entraObjectId = true := by
      rw [hoidf]
      simp [truthy, hoid]
    have h4 : truthy req.sharePointItemId = true := by
      rw [hitemf]
      simp [truthy, hitem]
    have hyes : (asciiLowerStr s == "yes") = false := by
      rw [hs]
      decide
    have hmain : (handleActivityResponse env req).1 =
        { status := 200, success := true, action := some "license_removed",
          message := some "License removed and manager notified",
          timestamp := true } := by
      rw [handleActivityResponse, if_neg (by simp [h1, hmail, h3, h4])]
      simp only [hresp, hoidf, hitemf, Option.getD_some, getSharePointSiteId,
        hsite, hyes, Bool.false_eq_true, if_false, hs, removeUserFromGroup,
        hrem, updateSharePointItem, hpatch, hreqby, truthy]
      simp
    exact ⟨by rw [hmain], by rw [hmain], by rw [hmain]⟩
  · intro env r shuffle req idf u e hupnf hidf hfn hln hpe hlookup hpatch hsend
    have h1 : truthy req.userPrincipalName = true := by
      rw [hupnf]
      simp [truthy, hidf]
    have hmain : resetFreelancerPassword env r shuffle req =
        (resetPasswordErrorResponse e,
         [RemoteCall.userLookup idf, RemoteCall.passwordPatch u.id,
          RemoteCall.sendMailTo (req.personalEmail.getD "")]) := by
      rw [resetFreelancerPassword, if_neg (by simp [h1, hfn, hln, hpe])]
      simp only [h1, if_true, hupnf, Option.getD_some, hlookup, hpatch,
        sendPasswordResetEmail, hsend]
      simp [truthy, hidf, hlookup, hpatch]
    refine ⟨by rw [hmain], by rw [hmain]; rfl, ?_⟩
    rw [hmain]
    simp

/-- C2 witness: concrete instantiations of the three amended parts. -/
theorem C2_notification_amended_witness :
    ((handleActivityResponse envActivitySendFail reqYesW).1.status = 200 ∧
     (handleActivityResponse envActivitySendFail reqYesW).1.success = true ∧
     (handleActivityResponse envActivitySendFail reqYesW).1.action = some "activity_confirmed") ∧
    ((handleActivityResponse envActivitySendFail reqNoW).1.status = 200 ∧
     (handleActivityResponse envActivitySendFail reqNoW).1.success = true ∧
     (handleActivityResponse envActivitySendFail reqNoW).1.action = some "license_removed") ∧
    ((resetFreelancerPassword envResetSendFail (fun _ => 0) id resetReq).1 =
        resetPasswordErrorResponse eSendFail ∧
     (resetFreelancerPassword envResetSendFail (fun _ => 0) id resetReq).1.success = false ∧
     RemoteCall.passwordPatch "uid-1" ∈
        (resetFreelancerPassword envResetSendFail (fun _ => 0) id resetReq).2) :=
  ⟨C2_notification_amended.1 envActivitySendFail reqYesW "yes" "42" "site-1"
      eSendFail rfl rfl rfl rfl rfl (by decide) rfl rfl rfl,
   C2_notification_amended.2.1 envActivitySendFail reqNoW "no" "oid-1" "42"
      "m@x.com" "site-1" eSendFail rfl rfl rfl rfl (by decide) rfl
      (by decide) rfl rfl rfl rfl rfl,
   C2_notification_amended.2.2 envResetSendFail (fun _ => 0) id resetReq
      "u@x.com" { id := "uid-1", userPrincipalName := "u@x.com", displayName := "U" }
      eSendFail rfl (by decide) rfl rfl rfl rfl rfl rfl⟩
